import Mathlib

/-!
Verification of the quantum-safe atomic-swap core (Quantum-Bitcoin-Atomic-Swaps).

Shallow embedding of:
  * `src/lib/htlc.js`   — HTLC script construction / parsing / minimal number codec;
  * `src/lib/sol.js`    — Winternitz hash-chain one-time signatures and preimage check
                          (the repository's `lib/crypto.js` is not in the source tree;
                          `sol.js` carries the identical routines, which the claims cite);
  * the swap coordinator (`swap.js`, provided as `src/unnamed/part_004`) — the
    lifecycle state machine over an in-memory swap store.

Conventions of the embedding:
  * JS byte buffers / hex strings are modelled as `List Nat` of byte values
    (`Bytes`); hex-string equality in the source corresponds to byte-list
    equality here (hex rendering from `Buffer.toString('hex')` is injective
    and lowercase).  The one claim that is genuinely about hex-string *case*
    (`verifyPreimage`) is modelled at the string level.
  * cryptographic primitives (SHA-256, RIPEMD-160, base58check) are abstract
    parameters bundled in `CryptoPrims`; every claim proved here holds for all
    instantiations, in particular for the real hash functions.
  * JS exceptions are `Except` errors; functions that mutate the shared swap
    map are modelled as state-passing functions returning
    `Except error result × SwapStore`, so that mutations performed before a
    throw are visible in the returned store, exactly as in the source where
    the thrown-over record object stays mutated inside the `Map`.
-/

/-- Byte strings: JS `Buffer`s / hex strings, one `Nat` (0..255) per byte. -/
abbrev Bytes := List Nat

/-- Abstract cryptographic primitives used by the system.  `sha256` and
`ripemd160` stand for the Node `crypto` hashes, `b58check` for
`bs58check.encode`.  All results in this file hold for every instantiation. -/
structure CryptoPrims where
  sha256 : Bytes → Bytes
  ripemd160 : Bytes → Bytes
  b58check : Bytes → String

/-- Function `hash160` from the crypto module: RIPEMD-160 of SHA-256. -/
def hash160 (H : CryptoPrims) (data : Bytes) : Bytes :=
  H.ripemd160 (H.sha256 data)

/-- Function `hash256` from the crypto module (`src/lib/sol.js`): double SHA-256. -/
def hash256 (H : CryptoPrims) (data : Bytes) : Bytes :=
  H.sha256 (H.sha256 data)

/-! ## Minimal little-endian number codec (`src/lib/htlc.js` 486-522) -/

/-- Little-endian base-256 digit extraction: the `while (n > 0)` loop of
`encodeMinimalNumber`.  The loop variable strictly decreases (`n / 256 < n`
for `n > 0`), so running it with `fuel = n` is exact; the fuel only makes the
recursion structural. -/
def toLEBytesAux : Nat → Nat → Bytes
  | 0, _ => []
  | fuel + 1, n => if n = 0 then [] else n % 256 :: toLEBytesAux fuel (n / 256)

/-- Little-endian byte expansion of a natural number, dropping the trailing
zero bytes (empty for 0), as produced by the encoder's while loop. -/
def toLEBytes (n : Nat) : Bytes := toLEBytesAux n n

theorem toLEBytesAux_zero (fuel : Nat) : toLEBytesAux fuel 0 = [] := by
  cases fuel <;> simp [toLEBytesAux]

theorem toLEBytesAux_irrel (fuel fuel' n : Nat) (h : n ≤ fuel) (h' : n ≤ fuel') :
    toLEBytesAux fuel n = toLEBytesAux fuel' n := by
  induction fuel generalizing fuel' n with
  | zero =>
    have : n = 0 := Nat.le_zero.mp h
    subst this
    rw [toLEBytesAux_zero, toLEBytesAux_zero]
  | succ f ih =>
    rcases Nat.eq_zero_or_pos n with h0 | hpos
    · subst h0; rw [toLEBytesAux_zero, toLEBytesAux_zero]
    · obtain ⟨f', rfl⟩ : ∃ f', fuel' = f' + 1 := by
        cases fuel' with
        | zero => omega
        | succ k => exact ⟨k, rfl⟩
      have hne : n ≠ 0 := Nat.pos_iff_ne_zero.mp hpos
      have hdiv : n / 256 < n := Nat.div_lt_self hpos (by norm_num)
      simp only [toLEBytesAux, hne, if_false]
      rw [ih f' (n / 256) (by omega) (by omega)]

/-- Unfolding equation for `toLEBytes`, matching the source loop. -/
theorem toLEBytes_eq (n : Nat) :
    toLEBytes n = if n = 0 then [] else n % 256 :: toLEBytes (n / 256) := by
  rcases Nat.eq_zero_or_pos n with h0 | hpos
  · subst h0; simp [toLEBytes, toLEBytesAux]
  · have hne : n ≠ 0 := Nat.pos_iff_ne_zero.mp hpos
    have hdiv : n / 256 < n := Nat.div_lt_self hpos (by norm_num)
    simp only [hne, if_false]
    cases hn : n with
    | zero => omega
    | succ m =>
      simp only [toLEBytes, toLEBytesAux, hn ▸ hne, if_false]
      rw [← hn]
      exact congrArg (n % 256 :: ·)
        (toLEBytesAux_irrel m (n / 256) (n / 256) (by omega) (le_refl _))

/-- Source `encodeMinimalNumber` (htlc.js 486-504): little-endian bytes of `num`,
with a single `0x00` appended when the high bit of the most significant used
byte is set; the empty string for 0. -/
def encodeMinimalNumber (num : Nat) : Bytes :=
  if num = 0 then []
  else
    let b := toLEBytes num
    if b.getLast! &&& 0x80 ≠ 0 then b ++ [0x00] else b

/-- Source `decodeMinimalNumber` (htlc.js 511-522): little-endian base-256 decoding,
folding from the most significant (last) byte down. -/
def decodeMinimalNumber (hex : Bytes) : Nat :=
  hex.foldr (fun b result => result * 256 + b) 0

theorem decode_toLEBytes (n : Nat) : decodeMinimalNumber (toLEBytes n) = n := by
  induction n using Nat.strong_induction_on with
  | _ n ih =>
    rw [toLEBytes_eq]
    rcases Nat.eq_zero_or_pos n with h0 | hpos
    · subst h0; simp [decodeMinimalNumber]
    · have hne : n ≠ 0 := Nat.pos_iff_ne_zero.mp hpos
      have hdiv : n / 256 < n := Nat.div_lt_self hpos (by norm_num)
      simp only [hne, if_false, decodeMinimalNumber, List.foldr_cons]
      have := ih (n / 256) hdiv
      simp only [decodeMinimalNumber] at this
      rw [this]
      omega

theorem decode_append_zero (l : Bytes) :
    decodeMinimalNumber (l ++ [0x00]) = decodeMinimalNumber l := by
  simp [decodeMinimalNumber, List.foldr_append]

/-- Round trip of the minimal codec, for every `n`. -/
theorem decode_encode (n : Nat) :
    decodeMinimalNumber (encodeMinimalNumber n) = n := by
  unfold encodeMinimalNumber
  rcases Nat.eq_zero_or_pos n with h0 | hpos
  · subst h0; simp [decodeMinimalNumber]
  · have hne : n ≠ 0 := Nat.pos_iff_ne_zero.mp hpos
    simp only [hne, if_false]
    split
    · rw [decode_append_zero, decode_toLEBytes]
    · rw [decode_toLEBytes]

theorem toLEBytes_ne_nil (n : Nat) (h : 0 < n) : toLEBytes n ≠ [] := by
  rw [toLEBytes_eq]
  simp [Nat.pos_iff_ne_zero.mp h]

theorem encodeMinimalNumber_ne_nil (n : Nat) (h : 0 < n) :
    encodeMinimalNumber n ≠ [] := by
  unfold encodeMinimalNumber
  simp only [Nat.pos_iff_ne_zero.mp h, if_false]
  split
  · simp
  · exact toLEBytes_ne_nil n h

theorem toLEBytes_length_le (k : Nat) : ∀ n, n < 256 ^ k → (toLEBytes n).length ≤ k := by
  induction k with
  | zero =>
    intro n hn
    interval_cases n
    simp [toLEBytes, toLEBytesAux]
  | succ k ih =>
    intro n hn
    rw [toLEBytes_eq]
    rcases Nat.eq_zero_or_pos n with h0 | hpos
    · subst h0; simp
    · have hne : n ≠ 0 := Nat.pos_iff_ne_zero.mp hpos
      simp only [hne, if_false, List.length_cons]
      have : n / 256 < 256 ^ k := by
        rw [Nat.div_lt_iff_lt_mul (by norm_num)]
        calc n < 256 ^ (k + 1) := hn
        _ = 256 ^ k * 256 := by ring
      exact Nat.succ_le_succ (ih (n / 256) this)

theorem encodeMinimalNumber_length_le (n : Nat) (h : n < 2 ^ 53) :
    (encodeMinimalNumber n).length ≤ 8 := by
  have h7 : (toLEBytes n).length ≤ 7 := toLEBytes_length_le 7 n (by
    calc n < 2 ^ 53 := h
    _ ≤ 256 ^ 7 := by norm_num)
  unfold encodeMinimalNumber
  split
  · simp
  · simp only []
    split
    · simp only [List.length_append, List.length_singleton]
      omega
    · omega

/-! ## Script construction (`src/lib/htlc.js` 87-144, `src/lib/sol.js` 1097-1115) -/

/-- Source `pushData` (sol.js 1097; `lib/crypto.js` is absent from the source tree but
htlc.js's `crypto.pushData` is this identical routine): Bitcoin push encoding
of a data blob — direct length byte up to 75 bytes, `OP_PUSHDATA1` up to 255,
`OP_PUSHDATA2` (little-endian 16-bit length) up to 65535, error beyond. -/
def pushData (data : Bytes) : Except String Bytes :=
  if data.length = 0 then .ok [0x00]
  else if data.length ≤ 75 then .ok (data.length :: data)
  else if data.length ≤ 255 then .ok (0x4c :: data.length :: data)
  else if data.length ≤ 65535 then
    .ok (0x4d :: data.length % 256 :: data.length / 256 :: data)
  else .error "Data too large to push"

/-- Result record of `createHTLCScript` (htlc.js 133-143); the audit-only
`scriptASM` rendering of `createHTLC` is omitted (no modelled claim reads it). -/
structure HTLCScriptData where
  redeemScript : Bytes
  redeemScriptHash : Bytes
  sha256Hash : Bytes
  swapHash : Bytes
  recipientHash : Bytes
  refundHash : Bytes
  timeout : Nat
  timeoutHex : Bytes
  scriptSize : Nat
deriving DecidableEq, Repr

/-- Source `createHTLCScript` (htlc.js 87-144): validates the three 32-byte hashes
(64 hex characters in the source) and the positive timeout, then assembles
`IF SHA256 <swapHash> EQUALVERIFY SHA256 <recipientHash> EQUAL ELSE
<timeout> CHECKLOCKTIMEVERIFY DROP SHA256 <refundHash> EQUAL ENDIF`. -/
def createHTLCScript (H : CryptoPrims) (swapHash recipientHash refundHash : Bytes)
    (timeout : Nat) : Except String HTLCScriptData :=
  if swapHash.length ≠ 32 then
    .error "Invalid swap hash: must be 64 hex characters (32 bytes)"
  else if recipientHash.length ≠ 32 then
    .error "Invalid recipient hash: must be 64 hex characters (32 bytes)"
  else if refundHash.length ≠ 32 then
    .error "Invalid refund hash: must be 64 hex characters (32 bytes)"
  else if timeout < 1 then
    .error "Invalid timeout: must be positive unix timestamp"
  else do
    let timeoutHex := encodeMinimalNumber timeout
    let pSwap ← pushData swapHash
    let pRecip ← pushData recipientHash
    let pTimeout ← pushData timeoutHex
    let pRefund ← pushData refundHash
    let script := 0x63 :: 0xa8 :: pSwap ++ 0x88 :: 0xa8 :: pRecip ++
      0x87 :: 0x67 :: pTimeout ++ 0xb1 :: 0x75 :: 0xa8 :: pRefund ++ [0x87, 0x68]
    pure { redeemScript := script
           redeemScriptHash := hash160 H script
           sha256Hash := H.sha256 script
           swapHash := swapHash
           recipientHash := recipientHash
           refundHash := refundHash
           timeout := timeout
           timeoutHex := timeoutHex
           scriptSize := script.length }

/-! ## Script parsing (`src/lib/htlc.js` 291-408) -/

/-- Result of `parseHTLCScript` (the `valid`/`timeoutDate` presentation fields
are omitted). -/
structure ParsedHTLC where
  swapHash : Bytes
  recipientHash : Bytes
  refundHash : Bytes
  timeout : Nat
  timeoutHex : Bytes
deriving DecidableEq, Repr

/-- One `scriptHex.substring(i, i+2) !== OP` check of the parser: consume one
expected byte or fail with the parser's message.  (In the source, a script
that has run out of bytes compares `''` against the opcode and throws the same
message.) -/
def expectByte (b : Nat) (msg : String) : Bytes → Except String Bytes
  | [] => .error msg
  | x :: xs => if x = b then .ok xs else .error msg

/-- Read one byte (the timeout push-length read, `parseInt(... , 16)`).  On a
truncated script the source's `parseInt` yields `NaN` and the parse fails at a
later opcode check; the outcome (an error) is the same. -/
def readByte (msg : String) : Bytes → Except String (Nat × Bytes)
  | [] => .error msg
  | x :: xs => .ok (x, xs)

/-- Read `n` raw bytes (a hash or the timeout payload).  The source reads a
short `substring` and then unavoidably fails at the next opcode check; here
the same deviation fails immediately — accepted inputs and parse results
coincide. -/
def readBytes (n : Nat) (msg : String) (l : Bytes) : Except String (Bytes × Bytes) :=
  if n ≤ l.length then .ok (l.take n, l.drop n) else .error msg

/-- Source `parseHTLCScript` (htlc.js 291-408): strict structural parse of the
two-branch hash-lock template.  Note the source returns right after checking
the `ENDIF` byte: bytes after it are never examined. -/
def parseHTLCScript (scriptHex : Bytes) : Except String ParsedHTLC := do
  let s ← expectByte 0x63 "Expected OP_IF at start" scriptHex
  let s ← expectByte 0xa8 "Expected OP_SHA256" s
  let s ← expectByte 0x20 "Expected 32-byte push for swap hash" s
  let (swapHash, s) ← readBytes 32 "Expected 32-byte push for swap hash" s
  let s ← expectByte 0x88 "Expected OP_EQUALVERIFY" s
  let s ← expectByte 0xa8 "Expected OP_SHA256" s
  let s ← expectByte 0x20 "Expected 32-byte push for recipient hash" s
  let (recipientHash, s) ← readBytes 32 "Expected 32-byte push for recipient hash" s
  let s ← expectByte 0x87 "Expected OP_EQUAL" s
  let s ← expectByte 0x67 "Expected OP_ELSE" s
  let (timeoutPushLen, s) ← readByte "Expected OP_CHECKLOCKTIMEVERIFY" s
  let (timeoutHex, s) ← readBytes timeoutPushLen "Expected OP_CHECKLOCKTIMEVERIFY" s
  let s ← expectByte 0xb1 "Expected OP_CHECKLOCKTIMEVERIFY" s
  let s ← expectByte 0x75 "Expected OP_DROP" s
  let s ← expectByte 0xa8 "Expected OP_SHA256" s
  let s ← expectByte 0x20 "Expected 32-byte push for refund hash" s
  let (refundHash, s) ← readBytes 32 "Expected 32-byte push for refund hash" s
  let s ← expectByte 0x87 "Expected OP_EQUAL" s
  let _ ← expectByte 0x68 "Expected OP_ENDIF" s
  pure { swapHash := swapHash
         recipientHash := recipientHash
         refundHash := refundHash
         timeout := decodeMinimalNumber timeoutHex
         timeoutHex := timeoutHex }

/-- The exact byte shape accepted by `parseHTLCScript`: the two-branch
template followed by arbitrary unchecked trailing bytes `rest`. -/
def htlcTemplate (sh rh fh tl rest : Bytes) : Bytes :=
  0x63 :: 0xa8 :: 0x20 :: sh ++ 0x88 :: 0xa8 :: 0x20 :: rh ++
  0x87 :: 0x67 :: tl.length :: tl ++ 0xb1 :: 0x75 :: 0xa8 :: 0x20 :: fh ++
  0x87 :: 0x68 :: rest

theorem expectByte_ok (b : Nat) (msg : String) (l l' : Bytes) :
    expectByte b msg l = .ok l' ↔ l = b :: l' := by
  cases l with
  | nil => simp [expectByte]
  | cons x xs =>
    simp only [expectByte]
    split
    · rename_i hx
      subst hx
      constructor
      · intro h
        cases h
        rfl
      · intro h
        cases h
        rfl
    · rename_i hx
      constructor
      · intro h
        cases h
      · intro h
        cases h
        exact absurd rfl hx

theorem readByte_ok (msg : String) (l : Bytes) (b : Nat) (l' : Bytes) :
    readByte msg l = .ok (b, l') ↔ l = b :: l' := by
  cases l with
  | nil => simp [readByte]
  | cons x xs =>
    simp only [readByte]
    constructor
    · intro h
      cases h
      rfl
    · intro h
      cases h
      rfl

theorem readBytes_ok (n : Nat) (msg : String) (l t l' : Bytes) :
    readBytes n msg l = .ok (t, l') ↔ (l = t ++ l' ∧ t.length = n) := by
  unfold readBytes
  split
  · rename_i hle
    constructor
    · intro h
      cases h
      exact ⟨(List.take_append_drop n l).symm, List.length_take_of_le hle⟩
    · rintro ⟨rfl, rfl⟩
      simp
  · rename_i hgt
    constructor
    · intro h
      cases h
    · rintro ⟨rfl, rfl⟩
      simp at hgt

theorem readBytes_append (n : Nat) (msg : String) (x r : Bytes) (hx : x.length = n) :
    readBytes n msg (x ++ r) = .ok (x, r) := by
  rw [readBytes_ok]
  exact ⟨rfl, hx⟩

theorem parseHTLCScript_template (sh rh fh tl rest : Bytes)
    (hsh : sh.length = 32) (hrh : rh.length = 32) (hfh : fh.length = 32) :
    parseHTLCScript (htlcTemplate sh rh fh tl rest) =
      .ok { swapHash := sh, recipientHash := rh, refundHash := fh,
            timeout := decodeMinimalNumber tl, timeoutHex := tl } := by
  simp [parseHTLCScript, htlcTemplate, bind, Except.bind, expectByte, readByte,
    readBytes_append, hsh, hrh, hfh, pure, Except.pure]

theorem bind_ok_elim {ε α β : Type} (e : Except ε α) (f : α → Except ε β) (b : β)
    (h : Except.bind e f = .ok b) : ∃ a, e = .ok a ∧ f a = .ok b := by
  cases e with
  | error err => simp [Except.bind] at h
  | ok a => exact ⟨a, rfl, h⟩

/-- Inversion: every byte string the parser accepts has exactly the template
shape (with the parsed fields in their committed positions and arbitrary
trailing bytes after the `ENDIF`). -/
theorem parseHTLCScript_shape (l : Bytes) (v : ParsedHTLC)
    (h : parseHTLCScript l = .ok v) :
    ∃ rest, l = htlcTemplate v.swapHash v.recipientHash v.refundHash v.timeoutHex rest ∧
      v.swapHash.length = 32 ∧ v.recipientHash.length = 32 ∧
      v.refundHash.length = 32 ∧ v.timeout = decodeMinimalNumber v.timeoutHex := by
  unfold parseHTLCScript at h
  simp only [bind] at h
  obtain ⟨s1, h1, h⟩ := bind_ok_elim _ _ _ h
  rw [expectByte_ok] at h1
  obtain ⟨s2, h2, h⟩ := bind_ok_elim _ _ _ h
  rw [expectByte_ok] at h2
  obtain ⟨s3, h3, h⟩ := bind_ok_elim _ _ _ h
  rw [expectByte_ok] at h3
  obtain ⟨⟨sh, s4⟩, h4, h⟩ := bind_ok_elim _ _ _ h
  rw [readBytes_ok] at h4
  obtain ⟨h4eq, h4len⟩ := h4
  obtain ⟨s5, h5, h⟩ := bind_ok_elim _ _ _ h
  rw [expectByte_ok] at h5
  obtain ⟨s6, h6, h⟩ := bind_ok_elim _ _ _ h
  rw [expectByte_ok] at h6
  obtain ⟨s7, h7, h⟩ := bind_ok_elim _ _ _ h
  rw [expectByte_ok] at h7
  obtain ⟨⟨rh, s8⟩, h8, h⟩ := bind_ok_elim _ _ _ h
  rw [readBytes_ok] at h8
  obtain ⟨h8eq, h8len⟩ := h8
  obtain ⟨s9, h9, h⟩ := bind_ok_elim _ _ _ h
  rw [expectByte_ok] at h9
  obtain ⟨s10, h10, h⟩ := bind_ok_elim _ _ _ h
  rw [expectByte_ok] at h10
  obtain ⟨⟨plen, s11⟩, h11, h⟩ := bind_ok_elim _ _ _ h
  rw [readByte_ok] at h11
  obtain ⟨⟨tl, s12⟩, h12, h⟩ := bind_ok_elim _ _ _ h
  rw [readBytes_ok] at h12
  obtain ⟨h12eq, h12len⟩ := h12
  obtain ⟨s13, h13, h⟩ := bind_ok_elim _ _ _ h
  rw [expectByte_ok] at h13
  obtain ⟨s14, h14, h⟩ := bind_ok_elim _ _ _ h
  rw [expectByte_ok] at h14
  obtain ⟨s15, h15, h⟩ := bind_ok_elim _ _ _ h
  rw [expectByte_ok] at h15
  obtain ⟨s16, h16, h⟩ := bind_ok_elim _ _ _ h
  rw [expectByte_ok] at h16
  obtain ⟨⟨fh, s17⟩, h17, h⟩ := bind_ok_elim _ _ _ h
  rw [readBytes_ok] at h17
  obtain ⟨h17eq, h17len⟩ := h17
  obtain ⟨s18, h18, h⟩ := bind_ok_elim _ _ _ h
  rw [expectByte_ok] at h18
  obtain ⟨s19, h19, h⟩ := bind_ok_elim _ _ _ h
  rw [expectByte_ok] at h19
  simp only [pure, Except.pure, Except.ok.injEq] at h
  subst h
  refine ⟨s19, ?_, h4len, h8len, h17len, rfl⟩
  subst h1 h2 h3 h4eq h5 h6 h7 h8eq h9 h10 h11 h12eq h13 h14 h15 h16 h17eq h18 h19
  simp [htlcTemplate, h12len]

/-- Wrapper `createHTLC` (htlc.js 154-184): chain-dependent packaging of the
script.  `BSV` exposes the bare locking script and its SHA-256; every other
chain tag takes the `else` (P2SH) branch with a base58check address. -/
structure HTLCFull where
  base : HTLCScriptData
  network : String
  outputType : String
  address : Option String
  lockingScriptF : Option Bytes
  scriptHashF : Option Bytes
deriving DecidableEq

/-- Supported ledgers of the coordinator (`SupportedChains` in swap.js).  Chain
tags are strings in the source; the coordinator upper-cases and validates them
against this fixed list before use, so the enumeration is exact. -/
inductive Chain | BSV | BTC | SOL
deriving DecidableEq, Repr

/-- Source `scriptHashToP2SH` (htlc.js 196-203): version byte `0x05`
(mainnet) / `0xc4` (testnet) prepended to the HASH160, base58check-encoded. -/
def scriptHashToP2SH (H : CryptoPrims) (scriptHash : Bytes) (network : String) : String :=
  H.b58check ((if network = "mainnet" then 0x05 else 0xc4) :: scriptHash)

def createHTLC (H : CryptoPrims) (swapHash recipientHash refundHash : Bytes)
    (timeout : Nat) (chain : Chain) (network : String) : Except String HTLCFull := do
  let htlcScript ← createHTLCScript H swapHash recipientHash refundHash timeout
  match chain with
  | .BSV =>
    pure { base := htlcScript, network := network, outputType := "bare-script"
           address := none
           lockingScriptF := some htlcScript.redeemScript
           scriptHashF := some htlcScript.sha256Hash }
  | _ =>
    pure { base := htlcScript, network := network, outputType := "p2sh"
           address := some (scriptHashToP2SH H htlcScript.redeemScriptHash network)
           lockingScriptF := none
           scriptHashF := none }

/-- Success shape of `createHTLCScript` under the validation preconditions;
`timeout < 2 ^ 53` reflects the exact-integer range of the JS number the
source manipulates (and keeps the timeout push a direct, single-length-byte
push). -/
theorem createHTLCScript_ok (H : CryptoPrims) (sh rh fh : Bytes) (t : Nat)
    (hsh : sh.length = 32) (hrh : rh.length = 32) (hfh : fh.length = 32)
    (ht : 1 ≤ t) (ht53 : t < 2 ^ 53) :
    createHTLCScript H sh rh fh t =
      .ok { redeemScript := htlcTemplate sh rh fh (encodeMinimalNumber t) []
            redeemScriptHash := hash160 H (htlcTemplate sh rh fh (encodeMinimalNumber t) [])
            sha256Hash := H.sha256 (htlcTemplate sh rh fh (encodeMinimalNumber t) [])
            swapHash := sh
            recipientHash := rh
            refundHash := fh
            timeout := t
            timeoutHex := encodeMinimalNumber t
            scriptSize := (htlcTemplate sh rh fh (encodeMinimalNumber t) []).length } := by
  have henc0 : ¬ (encodeMinimalNumber t).length = 0 := by
    simp only [List.length_eq_zero]
    exact encodeMinimalNumber_ne_nil t ht
  have henc75 : (encodeMinimalNumber t).length ≤ 75 :=
    le_trans (encodeMinimalNumber_length_le t ht53) (by norm_num)
  have pSwap : pushData sh = .ok (0x20 :: sh) := by
    simp [pushData, hsh]
  have pRecip : pushData rh = .ok (0x20 :: rh) := by
    simp [pushData, hrh]
  have pRefund : pushData fh = .ok (0x20 :: fh) := by
    simp [pushData, hfh]
  have pTimeout : pushData (encodeMinimalNumber t) =
      .ok ((encodeMinimalNumber t).length :: encodeMinimalNumber t) := by
    simp [pushData, henc0, henc75]
  unfold createHTLCScript
  rw [if_neg (by simp [hsh]), if_neg (by simp [hrh]), if_neg (by simp [hfh]),
    if_neg (by omega)]
  simp only [bind, Except.bind, pSwap, pRecip, pTimeout, pRefund, pure, Except.pure]
  simp [htlcTemplate, List.cons_append, List.append_assoc]

/-- A concrete instantiation of the abstract hash primitives, used only to
evaluate witnesses on concrete inputs; all theorems hold for every
`CryptoPrims`. -/
def testPrims : CryptoPrims where
  sha256 := fun l => [l.length % 256, (l.foldr (· + ·) 7) % 256]
  ripemd160 := fun l => (l.take 20) ++ [3]
  b58check := fun l => String.mk ((l.take 4).map (fun b => Char.ofNat (65 + b % 26)))

/-- C6: for every non-negative integer in the JS exact-integer range,
`decodeMinimalNumber (encodeMinimalNumber n) = n`; and the four pinned
encodings: `encode 0 = ''`, `encode 1 = '01'`, `encode 127 = '7f'`,
`encode 128 = '8000'` (zero byte appended exactly when the top used byte has
its high bit set). -/
theorem decodeMinimalNumber_encodeMinimalNumber (n : Nat) (h : n < 2 ^ 53) :
    decodeMinimalNumber (encodeMinimalNumber n) = n ∧
    encodeMinimalNumber 0 = [] ∧ encodeMinimalNumber 1 = [0x01] ∧
    encodeMinimalNumber 127 = [0x7f] ∧ encodeMinimalNumber 128 = [0x80, 0x00] :=
  ⟨decode_encode n, by decide, by decide, by decide, by decide⟩

theorem decodeMinimalNumber_encodeMinimalNumber_witness :
    300 < 2 ^ 53 ∧
    (decodeMinimalNumber (encodeMinimalNumber 300) = 300 ∧
     encodeMinimalNumber 0 = [] ∧ encodeMinimalNumber 1 = [0x01] ∧
     encodeMinimalNumber 127 = [0x7f] ∧ encodeMinimalNumber 128 = [0x80, 0x00]) :=
  ⟨by decide, decodeMinimalNumber_encodeMinimalNumber 300 (by decide)⟩

/-- C4: for three 32-byte hashes and a positive timeout (in the JS
exact-integer range), parsing the built redeem script recovers exactly the
four original values. -/
theorem parseHTLCScript_createHTLCScript_roundtrip (H : CryptoPrims)
    (sh rh fh : Bytes) (t : Nat)
    (hsh : sh.length = 32) (hrh : rh.length = 32) (hfh : fh.length = 32)
    (ht : 0 < t) (ht53 : t < 2 ^ 53) :
    ∃ res, createHTLCScript H sh rh fh t = .ok res ∧
      parseHTLCScript res.redeemScript =
        .ok { swapHash := sh, recipientHash := rh, refundHash := fh,
              timeout := t, timeoutHex := encodeMinimalNumber t } := by
  refine ⟨_, createHTLCScript_ok H sh rh fh t hsh hrh hfh ht ht53, ?_⟩
  rw [parseHTLCScript_template _ _ _ _ _ hsh hrh hfh]
  simp [decode_encode]

theorem parseHTLCScript_createHTLCScript_roundtrip_witness :
    (List.replicate 32 0xaa : Bytes).length = 32 ∧
    (List.replicate 32 0xbb : Bytes).length = 32 ∧
    (List.replicate 32 0xcc : Bytes).length = 32 ∧
    0 < 1700000000 ∧ 1700000000 < 2 ^ 53 ∧
    (∃ res, createHTLCScript testPrims (List.replicate 32 0xaa)
        (List.replicate 32 0xbb) (List.replicate 32 0xcc) 1700000000 = .ok res ∧
      parseHTLCScript res.redeemScript =
        .ok { swapHash := List.replicate 32 0xaa
              recipientHash := List.replicate 32 0xbb
              refundHash := List.replicate 32 0xcc
              timeout := 1700000000
              timeoutHex := encodeMinimalNumber 1700000000 }) :=
  ⟨by decide, by decide, by decide, by decide, by decide,
   parseHTLCScript_createHTLCScript_roundtrip testPrims _ _ _ 1700000000
     (by decide) (by decide) (by decide) (by decide) (by decide)⟩

/-- C5 counterexample: a script that deviates from the template by one
trailing byte after the final `ENDIF` is accepted by `parseHTLCScript`
(returning a parse result rather than failing), refuting "fails ... for
trailing bytes". -/
theorem parseHTLCScript_accepts_trailing_byte :
    parseHTLCScript (htlcTemplate (List.replicate 32 0x01) (List.replicate 32 0x02)
        (List.replicate 32 0x03) [0x2a] [0x00]) =
      .ok { swapHash := List.replicate 32 0x01, recipientHash := List.replicate 32 0x02,
            refundHash := List.replicate 32 0x03, timeout := 42, timeoutHex := [0x2a] } := by
  rfl

/-- C5 amended: the parser accepts exactly the byte strings consisting of the
two-branch template (fixed opcodes, three 32-byte hash pushes, a
length-prefixed timeout push of any length) followed by arbitrary unchecked
trailing bytes; every other deviation — wrong opcode at an expected position,
wrong hash push length, missing bytes — fails with a malformed-program
error. -/
theorem parseHTLCScript_accepts_exactly_template (l : Bytes) :
    (∃ v, parseHTLCScript l = .ok v) ↔
      ∃ sh rh fh tl rest, sh.length = 32 ∧ rh.length = 32 ∧ fh.length = 32 ∧
        l = htlcTemplate sh rh fh tl rest := by
  constructor
  · rintro ⟨v, hv⟩
    obtain ⟨rest, hshape, h32a, h32b, h32c, _⟩ := parseHTLCScript_shape l v hv
    exact ⟨_, _, _, _, rest, h32a, h32b, h32c, hshape⟩
  · rintro ⟨sh, rh, fh, tl, rest, h1, h2, h3, rfl⟩
    exact ⟨_, parseHTLCScript_template sh rh fh tl rest h1 h2 h3⟩

/-! ## Winternitz hash-chain one-time signatures (`src/lib/sol.js` 726-974) -/

/-- Constant `WOTS_CHUNKS` (sol.js 726). -/
def WOTS_CHUNKS : Nat := 32

/-- Constant `WOTS_ITERATIONS` (sol.js 727). -/
def WOTS_ITERATIONS : Nat := 256

/-- Source `iteratedHash256` (sol.js 779-785): `iterations` applications of the
chain hash (double SHA-256). -/
def iteratedHash256 (H : CryptoPrims) (data : Bytes) : Nat → Bytes
  | 0 => data
  | n + 1 => iteratedHash256 H (hash256 H data) n

theorem iteratedHash256_add (H : CryptoPrims) (data : Bytes) (a b : Nat) :
    iteratedHash256 H (iteratedHash256 H data a) b = iteratedHash256 H data (a + b) := by
  induction a generalizing data with
  | zero => simp [iteratedHash256]
  | succ k ih =>
    have : k + 1 + b = (k + b) + 1 := by omega
    rw [this]
    simp only [iteratedHash256]
    exact ih (hash256 H data)

/-- A Winternitz keypair (`generateWinternitzKeypair`, sol.js 822-848), with
the random draw of the 32 scalars supplied as an argument (entropy is the only
effect of the source function).  The duplicate hex renderings of the source
object are omitted: they carry the same data. -/
structure WinternitzKeypair where
  privateScalars : List Bytes
  publicCommitments : List Bytes
  publicKeyHash : Bytes
  publicKeyPreimage : Bytes
deriving DecidableEq

def generateWinternitzKeypair (H : CryptoPrims) (privateScalars : List Bytes) :
    WinternitzKeypair :=
  let publicCommitments := privateScalars.map (fun s => iteratedHash256 H s WOTS_ITERATIONS)
  { privateScalars := privateScalars
    publicCommitments := publicCommitments
    publicKeyHash := H.sha256 publicCommitments.join
    publicKeyPreimage := publicCommitments.join }

/-- One signature chunk: the revealed chain value and the message-byte
offset. -/
structure WotsChunk where
  revealed : Bytes
  offset : Nat
deriving DecidableEq

/-- Result object of `signWinternitz` (sol.js 926-936). -/
structure WotsSig where
  chunks : List WotsChunk
  message : Bytes
  signaturePreimage : Bytes
  offsets : List Nat
deriving DecidableEq

/-- Source `signWinternitz` (sol.js 904-938): requires a 32-byte message; reveals, at
chain position `i`, `hash^(256 - message[i])(scalar[i])` with offset
`message[i]`.  The source indexes `privateKey.scalars[i]` for `i < 32`; a
restored or generated keypair always has exactly 32 scalars
(`restoreKeypairFromPrivate` enforces it), which the `getD` default never
reaches under that invariant. -/
def signWinternitz (H : CryptoPrims) (message : Bytes) (privateScalars : List Bytes) :
    Except String WotsSig :=
  if message.length ≠ 32 then
    .error ("Message must be 32 bytes, got " ++ toString message.length)
  else
    let chunks := (List.range WOTS_CHUNKS).map fun i =>
      let messageByte := message.getD i 0
      { revealed := iteratedHash256 H (privateScalars.getD i [])
          (WOTS_ITERATIONS - messageByte)
        offset := messageByte : WotsChunk }
    .ok { chunks := chunks
          message := message
          signaturePreimage := (chunks.map (·.revealed)).join
          offsets := chunks.map (·.offset) }

/-- Source `verifyWinternitz` (sol.js 947-974): for each of the 32 positions, the
claimed offset must equal the message byte and re-hashing the revealed value
`offset` more times must reach the stored commitment; any mismatch (or a
message of the wrong size) yields `false`.  A signature or commitment list
shorter than 32 would crash the source on an `undefined` access; it is mapped
to `false` here and never arises for signatures produced by `signWinternitz`
over a 32-scalar keypair. -/
def verifyWinternitz (H : CryptoPrims) (message : Bytes) (signature : WotsSig)
    (publicCommitments : List Bytes) : Bool :=
  if message.length ≠ 32 then false
  else (List.range WOTS_CHUNKS).all fun i =>
    match signature.chunks.get? i with
    | none => false
    | some chunk =>
      chunk.offset == message.getD i 0 &&
        iteratedHash256 H chunk.revealed chunk.offset == publicCommitments.getD i []

/-- C7: signing fails unless the message is exactly 32 bytes; on a 32-byte
message of genuine bytes it reveals `hash^(256 - m[i])(scalar[i])` with offset
`m[i]` at every chain position, and the signature verifies against the
keypair's public commitments. -/
theorem signWinternitz_verifyWinternitz (H : CryptoPrims)
    (privateScalars : List Bytes) (message : Bytes)
    (hsc : privateScalars.length = 32) :
    (message.length ≠ 32 →
      signWinternitz H message privateScalars =
        .error ("Message must be 32 bytes, got " ++ toString message.length)) ∧
    (message.length = 32 → (∀ b ∈ message, b < 256) →
      ∃ sig, signWinternitz H message privateScalars = .ok sig ∧
        (∀ i, i < 32 → sig.chunks.get? i =
          some { revealed := iteratedHash256 H (privateScalars.getD i [])
                   (256 - message.getD i 0)
                 offset := message.getD i 0 }) ∧
        verifyWinternitz H message sig
          (generateWinternitzKeypair H privateScalars).publicCommitments = true) := by
  constructor
  · intro hlen
    simp [signWinternitz, hlen]
  · intro hlen hbytes
    simp only [signWinternitz, hlen, ne_eq, not_true_eq_false, if_false, reduceIte]
    refine ⟨_, rfl, ?_, ?_⟩
    · intro i hi
      rw [List.get?_eq_getElem?, List.getElem?_map,
        List.getElem?_range (show i < WOTS_CHUNKS from hi)]
      simp [WOTS_ITERATIONS]
    · unfold verifyWinternitz
      rw [if_neg (by simp [hlen])]
      rw [List.all_eq_true]
      intro i hi'
      rw [List.mem_range] at hi'
      have hi : i < 32 := hi'
      rw [List.get?_eq_getElem?, List.getElem?_map, List.getElem?_range hi']
      simp only [Option.map_some']
      have hplen : i < privateScalars.length := by omega
      have hmlen : i < message.length := by omega
      have hb : message.getD i 0 < 256 := by
        apply hbytes
        rw [List.getD_eq_getElem _ _ hmlen]
        exact List.getElem_mem hmlen
      have hcomm : (generateWinternitzKeypair H privateScalars).publicCommitments.getD i [] =
          iteratedHash256 H (privateScalars.getD i []) WOTS_ITERATIONS := by
        unfold generateWinternitzKeypair
        simp only []
        rw [List.getD_eq_getElem _ _ (by simpa using hplen), List.getElem_map,
          List.getD_eq_getElem _ _ hplen]
      simp only [hcomm, iteratedHash256_add, WOTS_ITERATIONS]
      have hgetD : message[i]?.getD 0 = message.getD i 0 := by
        rw [List.getD_eq_getD_get?, List.get?_eq_getElem?]
      have harith : 256 - message[i]?.getD 0 + message[i]?.getD 0 = 256 := by omega
      simp [harith]

theorem signWinternitz_verifyWinternitz_witness :
    (List.replicate 32 ([7] : Bytes)).length = 32 ∧
    (List.replicate 32 0 : Bytes).length = 32 ∧
    (∀ b ∈ (List.replicate 32 0 : Bytes), b < 256) ∧
    (∃ sig, signWinternitz testPrims (List.replicate 32 0) (List.replicate 32 [7]) = .ok sig ∧
        (∀ i, i < 32 → sig.chunks.get? i =
          some { revealed := iteratedHash256 testPrims ((List.replicate 32 [7]).getD i [])
                   (256 - (List.replicate 32 0 : Bytes).getD i 0)
                 offset := (List.replicate 32 0 : Bytes).getD i 0 }) ∧
        verifyWinternitz testPrims (List.replicate 32 0) sig
          (generateWinternitzKeypair testPrims (List.replicate 32 [7])).publicCommitments =
            true) :=
  ⟨by decide, by decide, by decide,
   (signWinternitz_verifyWinternitz testPrims (List.replicate 32 [7])
     (List.replicate 32 0) (by decide)).2 (by decide) (by decide)⟩

/-! ## Preimage verification (`src/lib/sol.js` 1053-1063), at the hex-string
level, where the case-insensitivity of the comparison lives. -/

/-- ASCII lower-casing of one character, the behaviour of JS `toLowerCase` on
the ASCII range (hex digests contain only ASCII). -/
def asciiToLower (c : Char) : Char :=
  if 'A' ≤ c ∧ c ≤ 'Z' then Char.ofNat (c.toNat + 32) else c

/-- ASCII upper-casing of one character. -/
def asciiToUpper (c : Char) : Char :=
  if 'a' ≤ c ∧ c ≤ 'z' then Char.ofNat (c.toNat - 32) else c

def strToLower (s : String) : String := String.mk (s.data.map asciiToLower)

def strToUpper (s : String) : String := String.mk (s.data.map asciiToUpper)

/-- One lowercase hex digit, as emitted by `Buffer.toString('hex')`: ASCII
codes 48..57 for the digits, 97..102 for `a`..`f`. -/
def hexDigitChar (n : Nat) : Char :=
  if n < 10 then Char.ofNat (48 + n)
  else if n < 16 then Char.ofNat (87 + n)
  else '?'

/-- JS `Buffer.toString('hex')`: two lowercase hex digits per byte. -/
def hexEncode (l : Bytes) : String :=
  String.mk ((l.map (fun b => [hexDigitChar (b / 16 % 16), hexDigitChar (b % 16)])).flatten)

/-- Source `sha256Hex` (sol.js 749-751): SHA-256 rendered as a lowercase hex
string. -/
def sha256Hex (H : CryptoPrims) (data : Bytes) : String := hexEncode (H.sha256 data)

/-- Source `verifyPreimage` (sol.js 1060-1063): lower-case both the recomputed hex
digest and the expected hash and compare. -/
def verifyPreimage (H : CryptoPrims) (secret : Bytes) (expectedHash : String) : Bool :=
  strToLower (sha256Hex H secret) == strToLower expectedHash

theorem asciiToLower_hexDigitChar (n : Nat) :
    asciiToLower (hexDigitChar n) = hexDigitChar n := by
  unfold hexDigitChar
  by_cases h : n < 10
  · rw [if_pos h]
    interval_cases n <;> decide
  · rw [if_neg h]
    by_cases h2 : n < 16
    · rw [if_pos h2]
      interval_cases n <;> decide
    · rw [if_neg h2]
      decide

theorem asciiToLower_asciiToUpper_hexDigitChar (n : Nat) :
    asciiToLower (asciiToUpper (hexDigitChar n)) = hexDigitChar n := by
  unfold hexDigitChar
  by_cases h : n < 10
  · rw [if_pos h]
    interval_cases n <;> decide
  · rw [if_neg h]
    by_cases h2 : n < 16
    · rw [if_pos h2]
      interval_cases n <;> decide
    · rw [if_neg h2]
      decide

theorem strToLower_hexEncode (l : Bytes) : strToLower (hexEncode l) = hexEncode l := by
  unfold strToLower hexEncode
  congr 1
  rw [List.map_flatten]
  congr 1
  rw [List.map_map]
  apply List.map_congr_left
  intro b _
  simp [asciiToLower_hexDigitChar]

theorem strToLower_strToUpper_hexEncode (l : Bytes) :
    strToLower (strToUpper (hexEncode l)) = hexEncode l := by
  unfold strToLower strToUpper hexEncode
  congr 1
  rw [List.map_flatten, List.map_flatten]
  congr 1
  rw [List.map_map, List.map_map]
  apply List.map_congr_left
  intro b _
  simp [asciiToLower_asciiToUpper_hexDigitChar, Function.comp]

/-- C10: `verifyPreimage` returns `true` exactly when the (lowercase) hex
SHA-256 of the secret equals the lower-cased expected hash, so the comparison
is case-insensitive in the expected hash: a commitment rendered in uppercase
hex still validates against the same preimage. -/
theorem verifyPreimage_iff (H : CryptoPrims) (secret : Bytes) (expectedHash : String) :
    (verifyPreimage H secret expectedHash = true ↔
      sha256Hex H secret = strToLower expectedHash) ∧
    verifyPreimage H secret (strToUpper (sha256Hex H secret)) = true := by
  constructor
  · unfold verifyPreimage sha256Hex
    rw [beq_iff_eq, strToLower_hexEncode]
  · unfold verifyPreimage sha256Hex
    rw [beq_iff_eq, strToLower_hexEncode, strToLower_strToUpper_hexEncode]

/-! ## Swap coordinator (`swap.js`, `src/unnamed/part_004` 281-1243)

The coordinator mutates record objects held in a shared `Map`; operations are
modelled as state-passing functions over an association-list store.  External
effects — ledger adapters, entropy (keypair generation), the wall clock and
its ISO rendering — enter as explicit arguments, mirroring §6's adapter
contract.  Record fields that no modelled operation ever reads (the embedded
keypair objects duplicating each secret, `version`/`quantumSafe` constants,
and the diagnostic `scriptASM` rendering) are omitted. -/

inductive SwapStatus
  | initiated
  | counterparty_joined
  | initiator_funded
  | responder_funded
  | fully_funded
  | claiming
  | completed
  | refunding
  | refunded
  | expired
  | failed
deriving DecidableEq, Repr

/-- The initiator's secret bundle (`generateInitiatorSecrets`, sol.js
989-1026), stored at `initiate` time. -/
structure InitiatorSecrets where
  swap_secret : Bytes
  swap_hash : Bytes
  refund_secret : Bytes
  refund_hash : Bytes
  claim_secret : Bytes
  claim_hash : Bytes
deriving DecidableEq, Repr

/-- The responder slot of a swap record; all fields `null` until `joinSwap`. -/
structure ResponderData where
  recipient_secret : Option Bytes
  recipient_hash : Option Bytes
  refund_secret : Option Bytes
  refund_hash : Option Bytes
  toAddress : Option String
  refundAddress : Option String
deriving DecidableEq, Repr

/-- The responder's secret bundle (`generateResponderSecrets`, sol.js
1032-1054), drawn at `joinSwap` time and supplied as an argument here
(entropy is the only effect of the generator). -/
structure ResponderSecretsGen where
  recipient_secret : Bytes
  recipient_hash : Bytes
  refund_secret : Bytes
  refund_hash : Bytes
deriving DecidableEq, Repr

/-- One escrow leg of a swap record (`initiatorHTLC` / `responderHTLC`). -/
structure HTLCSide where
  chain : Chain
  address : Option String
  lockingScript : Option Bytes
  scriptHash : Option Bytes
  timeout : Nat
  funded : Bool
  fundingTxid : Option String
  htlcData : Option String
deriving DecidableEq, Repr

/-- One entry of the record's `transactions` array (`type` is a reserved word
here, rendered `txType`). -/
structure TxRecord where
  txType : String
  chain : Chain
  txid : String
  swapSecretRevealed : Bool
  timestamp : String
deriving DecidableEq, Repr

/-- A swap record (§3 Swap Record; swap.js 419-484). -/
structure Swap where
  swapId : String
  status : SwapStatus
  fromChain : Chain
  toChain : Chain
  fromAmount : Int
  toAmount : Int
  toAddress : String
  refundAddress : String
  initiator : InitiatorSecrets
  responder : ResponderData
  initiatorHTLC : HTLCSide
  responderHTLC : HTLCSide
  transactions : List TxRecord
  createdAt : String
  updatedAt : String
deriving DecidableEq, Repr

/-- The in-memory `swaps` map, as an association list. -/
abbrev SwapStore := List (String × Swap)

def lookupSwap (st : SwapStore) (swapId : String) : Option Swap :=
  List.lookup swapId st

/-- The `swaps.set` / in-place record mutation: the new binding shadows the old
one for `lookupSwap`, observationally `Map.set`. -/
def setSwap (st : SwapStore) (swapId : String) (s : Swap) : SwapStore :=
  (swapId, s) :: st

/-- An unspent output as returned by the per-chain adapters. -/
structure Utxo where
  txid : String
  vout : Nat
  satoshis : Int
deriving DecidableEq, Repr

/-- A balance as returned by `getBalance` / `getHTLCBalance`; fields that a
given adapter does not populate are `none` (JS `undefined`). -/
structure Balance where
  satoshis : Option Int
  lamports : Option Int
  utxos : List Utxo
deriving DecidableEq, Repr

structure TxDraft where
  txHex : String
deriving DecidableEq, Repr

/-- Parameters of `sol.createHTLCInfo` (sol.js 413-422). -/
structure SolHTLCParams where
  swapHash : Bytes
  recipientHash : Bytes
  refundHash : Bytes
  initiator : String
  recipient : String
  lamports : Int
  timeoutSeconds : Int
deriving DecidableEq, Repr

/-- The part of `sol.createHTLCInfo`'s result the coordinator stores. -/
structure SolHTLCInfo where
  htlcAddress : String
  htlcData : String
deriving DecidableEq, Repr

/-- Parameters the coordinator passes to `buildClaimTransaction`; `Option`
fields can be JS `undefined`/`null` at the call sites. -/
structure ClaimSpendParams where
  utxo : Utxo
  swapSecret : Bytes
  recipientSecret : Option Bytes
  lockingScript : Option Bytes
  redeemScript : Option Bytes
  toAddress : Option String
deriving DecidableEq, Repr

structure RefundSpendParams where
  utxo : Utxo
  refundSecret : Option Bytes
  lockingScript : Option Bytes
  redeemScript : Option Bytes
  toAddress : Option String
deriving DecidableEq, Repr

/-- The per-chain adapter surface the coordinator calls (§6 ledger adapter
contract; implemented by `bsv.js` / `btc.js` / `sol.js`).  Network I/O is
abstracted as `Except`-valued functions: an `error` is a thrown adapter
exception. -/
structure ChainModule where
  validateAddress : String → Bool
  getHTLCBalance : Option Bytes → Except String Balance
  getBalance : Option String → Except String Balance
  buildClaimTransaction : ClaimSpendParams → Except String TxDraft
  buildRefundTransaction : RefundSpendParams → Except String TxDraft
  broadcastTransaction : String → Except String String
  createHTLCInfo : SolHTLCParams → Except String SolHTLCInfo

/-- The selector `getChainModule` (swap.js 350-357) as an environment. -/
abbrev ChainEnv := Chain → ChainModule

/-- The coordinator's thrown errors, one constructor per distinct `throw`
site (messages carried as constructor data where the claims inspect them). -/
inductive SwapErr where
  | swapNotFound
  | sameChain
  | invalidRefundAddress
  | invalidToAddress
  | cannotJoinStatus (status : SwapStatus)
  | cannotClaimStatus (status : SwapStatus)
  | noFundsToClaim
  | invalidSwapSecret
  | timeoutNotReached (remaining : Nat)
  | noFundsToRefund
  | script (msg : String)
  | ledger (msg : String)
deriving DecidableEq, Repr

/-- Timeout configuration (swap.js 331-339). -/
structure SwapConfig where
  initiatorTimeoutSeconds : Nat
  responderTimeoutSeconds : Nat
deriving DecidableEq, Repr

structure InitParams where
  fromChain : Chain
  toChain : Chain
  fromAmount : Int
  toAmount : Int
  toAddress : String
  refundAddress : String
deriving DecidableEq, Repr

/-- The part of `initiateSwap`'s response the claims inspect (presentation
strings and the echoed secrets omitted). -/
structure InitResult where
  swapId : String
  status : SwapStatus
  swap_hash : Bytes
  initiatorTimeout : Nat
  responderTimeout : Nat
deriving DecidableEq, Repr

/-- Source `initiateSwap` (swap.js 372-522).  Chain tags are typed, so the
membership checks against `SupportedChains` (which reject unknown strings in
the source) are vacuous here; the remaining validations are literal.  Note the
source performs no validation of `fromAmount` / `toAmount`. -/
def initiateSwap (env : ChainEnv) (cfg : SwapConfig)
    (initiatorSecrets : InitiatorSecrets) (uuid : String) (now : Nat)
    (nowIso : String) (st : SwapStore) (p : InitParams) :
    Except SwapErr InitResult × SwapStore :=
  if p.fromChain = p.toChain then (.error .sameChain, st)
  else if ¬ (env p.fromChain).validateAddress p.refundAddress then
    (.error .invalidRefundAddress, st)
  else if ¬ (env p.toChain).validateAddress p.toAddress then
    (.error .invalidToAddress, st)
  else
    let swapId := "qswap_" ++ uuid
    let initiatorTimeout := now + cfg.initiatorTimeoutSeconds
    let responderTimeout := now + cfg.responderTimeoutSeconds
    let swap : Swap :=
      { swapId := swapId
        status := .initiated
        fromChain := p.fromChain
        toChain := p.toChain
        fromAmount := p.fromAmount
        toAmount := p.toAmount
        toAddress := p.toAddress
        refundAddress := p.refundAddress
        initiator := initiatorSecrets
        responder := ⟨none, none, none, none, none, none⟩
        initiatorHTLC := ⟨p.fromChain, none, none, none, initiatorTimeout, false, none, none⟩
        responderHTLC := ⟨p.toChain, none, none, none, responderTimeout, false, none, none⟩
        transactions := []
        createdAt := nowIso
        updatedAt := nowIso }
    (.ok { swapId := swapId
           status := .initiated
           swap_hash := initiatorSecrets.swap_hash
           initiatorTimeout := initiatorTimeout
           responderTimeout := responderTimeout },
     setSwap st swapId swap)

/-- The per-chain `if/else` block of `joinSwap` that installs a built HTLC
into one escrow side (swap.js 589-613 for the initiator side, 625-645 for the
responder side): BSV stores the bare locking script and its SHA-256, BTC the
P2SH address, redeem script and HASH160, SOL calls the (network-bound)
`sol.createHTLCInfo` adapter and stores its address and account data. -/
def applySideHTLC (env : ChainEnv) (chain : Chain) (side : HTLCSide)
    (res : HTLCFull) (solParams : SolHTLCParams) : Except String HTLCSide :=
  match chain with
  | .BSV =>
    .ok { side with lockingScript := res.lockingScriptF
                    scriptHash := res.scriptHashF
                    address := none }
  | .BTC =>
    .ok { side with address := res.address
                    lockingScript := some res.base.redeemScript
                    scriptHash := some res.base.redeemScriptHash }
  | .SOL =>
    ((env .SOL).createHTLCInfo solParams).map fun info =>
      { side with address := some info.htlcAddress
                  htlcData := some info.htlcData }

/-- The part of `joinSwap`'s response the claims inspect. -/
structure JoinResult where
  swapId : String
  status : SwapStatus
deriving DecidableEq, Repr

/-- Source `joinSwap` (swap.js 536-698).  The `htlc.createHTLC` call for each side is
unconditional in the source (even for a SOL leg, whose chain-specific fields
are then taken from `sol.createHTLCInfo` instead).  Mutations already applied
to the record when a later step throws remain visible in the returned store,
as they do in the source's shared `Map`. -/
def joinSwap (env : ChainEnv) (H : CryptoPrims)
    (responderSecrets : ResponderSecretsGen) (now : Nat) (nowIso : String)
    (st : SwapStore) (swapId toAddress refundAddress : String) :
    Except SwapErr JoinResult × SwapStore :=
  match lookupSwap st swapId with
  | none => (.error .swapNotFound, st)
  | some swap =>
    if swap.status ≠ .initiated then (.error (.cannotJoinStatus swap.status), st)
    else if ¬ (env swap.fromChain).validateAddress toAddress then
      (.error .invalidToAddress, st)
    else if ¬ (env swap.toChain).validateAddress refundAddress then
      (.error .invalidRefundAddress, st)
    else
      let swap1 := { swap with responder :=
        ⟨some responderSecrets.recipient_secret, some responderSecrets.recipient_hash,
         some responderSecrets.refund_secret, some responderSecrets.refund_hash,
         some toAddress, some refundAddress⟩ }
      match createHTLC H swap.initiator.swap_hash responderSecrets.recipient_hash
          swap.initiator.refund_hash swap.initiatorHTLC.timeout swap.fromChain "mainnet" with
      | .error e => (.error (.script e), setSwap st swapId swap1)
      | .ok iRes =>
        match applySideHTLC env swap.fromChain swap1.initiatorHTLC iRes
            ⟨swap.initiator.swap_hash, responderSecrets.recipient_hash,
             swap.initiator.refund_hash, swap.refundAddress, toAddress,
             swap.fromAmount, (swap.initiatorHTLC.timeout : Int) - (now : Int)⟩ with
        | .error e => (.error (.ledger e), setSwap st swapId swap1)
        | .ok iSide =>
          let swap2 := { swap1 with initiatorHTLC := iSide }
          match createHTLC H swap.initiator.swap_hash swap.initiator.claim_hash
              responderSecrets.refund_hash swap.responderHTLC.timeout swap.toChain "mainnet" with
          | .error e => (.error (.script e), setSwap st swapId swap2)
          | .ok rRes =>
            match applySideHTLC env swap.toChain swap2.responderHTLC rRes
                ⟨swap.initiator.swap_hash, swap.initiator.claim_hash,
                 responderSecrets.refund_hash, refundAddress, swap.toAddress,
                 swap.toAmount, (swap.responderHTLC.timeout : Int) - (now : Int)⟩ with
            | .error e => (.error (.ledger e), setSwap st swapId swap2)
            | .ok rSide =>
              let swap3 := { swap2 with responderHTLC := rSide
                                        status := .counterparty_joined
                                        updatedAt := nowIso }
              (.ok { swapId := swapId, status := SwapStatus.counterparty_joined },
               setSwap st swapId swap3)

/-- The part of a claim response the claims inspect. -/
structure ClaimResult where
  swapId : String
  status : SwapStatus
  txid : String
  chain : Chain
  revealedSecret : Option Bytes
deriving DecidableEq, Repr

/-- The UTXO-fetch block shared by claim/refund operations (e.g. swap.js
849-856): BSV looks the escrow up by script hash, BTC by address; for a SOL
leg no branch assigns `utxos`, which stays `undefined` (`none`). -/
def fetchUtxos (env : ChainEnv) (chain : Chain) (side : HTLCSide) :
    Except String (Option (List Utxo)) :=
  match chain with
  | .BSV => ((env .BSV).getHTLCBalance side.scriptHash).map (fun b => some b.utxos)
  | .BTC => ((env .BTC).getBalance side.address).map (fun b => some b.utxos)
  | .SOL => .ok none

/-- Source `initiatorClaim` (swap.js 835-901).  Note the source sets
`swap.status = CLAIMING` *before* any ledger query or broadcast; an adapter
failure after that point leaves the record in `claiming`. -/
def initiatorClaim (env : ChainEnv) (nowIso : String) (st : SwapStore)
    (swapId : String) (toAddress : Option String) :
    Except SwapErr ClaimResult × SwapStore :=
  match lookupSwap st swapId with
  | none => (.error .swapNotFound, st)
  | some swap =>
    if swap.status ≠ .fully_funded then (.error (.cannotClaimStatus swap.status), st)
    else
      let swap1 := { swap with status := .claiming }
      let st1 := setSwap st swapId swap1
      match fetchUtxos env swap.toChain swap1.responderHTLC with
      | .error e => (.error (.ledger e), st1)
      | .ok none => (.error .noFundsToClaim, st1)
      | .ok (some []) => (.error .noFundsToClaim, st1)
      | .ok (some (utxo :: _)) =>
        let destination := some (toAddress.getD swap1.toAddress)
        let chainModule := env swap.toChain
        match chainModule.buildClaimTransaction
            ⟨utxo, swap1.initiator.swap_secret, some swap1.initiator.claim_secret,
             swap1.responderHTLC.lockingScript, swap1.responderHTLC.lockingScript,
             destination⟩ with
        | .error e => (.error (.ledger e), st1)
        | .ok claimTx =>
          match chainModule.broadcastTransaction claimTx.txHex with
          | .error e => (.error (.ledger e), st1)
          | .ok txid =>
            let swap2 := { swap1 with
              status := .completed
              updatedAt := nowIso
              transactions := swap1.transactions ++
                [⟨"initiator_claim", swap1.toChain, txid, true, nowIso⟩] }
            (.ok ⟨swapId, SwapStatus.completed, txid, swap.toChain,
                  some swap.initiator.swap_secret⟩,
             setSwap st1 swapId swap2)

/-- Source `responderClaim` (swap.js 908-969).  The only verification is
`sha256Hex(swapSecret) !== swap.initiator.swap_hash` (byte-level equality
here); the recipient secret is taken from the record unverified, and there is
no status precondition.  No mutation happens before a successful broadcast. -/
def responderClaim (env : ChainEnv) (H : CryptoPrims) (nowIso : String)
    (st : SwapStore) (swapId : String) (swapSecret : Bytes)
    (toAddress : Option String) : Except SwapErr ClaimResult × SwapStore :=
  match lookupSwap st swapId with
  | none => (.error .swapNotFound, st)
  | some swap =>
    if H.sha256 swapSecret ≠ swap.initiator.swap_hash then
      (.error .invalidSwapSecret, st)
    else
      match fetchUtxos env swap.fromChain swap.initiatorHTLC with
      | .error e => (.error (.ledger e), st)
      | .ok none => (.error .noFundsToClaim, st)
      | .ok (some []) => (.error .noFundsToClaim, st)
      | .ok (some (utxo :: _)) =>
        let destination := match toAddress with
          | some a => some a
          | none => swap.responder.toAddress
        let chainModule := env swap.fromChain
        match chainModule.buildClaimTransaction
            ⟨utxo, swapSecret, swap.responder.recipient_secret,
             swap.initiatorHTLC.lockingScript, swap.initiatorHTLC.lockingScript,
             destination⟩ with
        | .error e => (.error (.ledger e), st)
        | .ok claimTx =>
          match chainModule.broadcastTransaction claimTx.txHex with
          | .error e => (.error (.ledger e), st)
          | .ok txid =>
            let swap2 := { swap with
              status := .completed
              updatedAt := nowIso
              transactions := swap.transactions ++
                [⟨"responder_claim", swap.fromChain, txid, false, nowIso⟩] }
            (.ok ⟨swapId, SwapStatus.completed, txid, swap.fromChain, none⟩,
             setSwap st swapId swap2)

/-- The part of a refund response the claims inspect. -/
structure RefundResult where
  swapId : String
  status : SwapStatus
  txid : String
  chain : Chain
deriving DecidableEq, Repr

/-- Source `initiatorRefund` (swap.js 980-1042): the timeout gate is evaluated
against the fresh wall clock first (after the lookup), reporting
`timeout - now` remaining seconds; no mutation happens before a successful
broadcast. -/
def initiatorRefund (env : ChainEnv) (now : Nat) (nowIso : String)
    (st : SwapStore) (swapId : String) (toAddress : Option String) :
    Except SwapErr RefundResult × SwapStore :=
  match lookupSwap st swapId with
  | none => (.error .swapNotFound, st)
  | some swap =>
    if now < swap.initiatorHTLC.timeout then
      (.error (.timeoutNotReached (swap.initiatorHTLC.timeout - now)), st)
    else
      match fetchUtxos env swap.fromChain swap.initiatorHTLC with
      | .error e => (.error (.ledger e), st)
      | .ok none => (.error .noFundsToRefund, st)
      | .ok (some []) => (.error .noFundsToRefund, st)
      | .ok (some (utxo :: _)) =>
        let destination := some (toAddress.getD swap.refundAddress)
        let chainModule := env swap.fromChain
        match chainModule.buildRefundTransaction
            ⟨utxo, some swap.initiator.refund_secret,
             swap.initiatorHTLC.lockingScript, swap.initiatorHTLC.lockingScript,
             destination⟩ with
        | .error e => (.error (.ledger e), st)
        | .ok refundTx =>
          match chainModule.broadcastTransaction refundTx.txHex with
          | .error e => (.error (.ledger e), st)
          | .ok txid =>
            let swap2 := { swap with
              status := .refunded
              updatedAt := nowIso
              transactions := swap.transactions ++
                [⟨"initiator_refund", swap.fromChain, txid, false, nowIso⟩] }
            (.ok ⟨swapId, SwapStatus.refunded, txid, swap.fromChain⟩,
             setSwap st swapId swap2)

/-- Source `responderRefund` (swap.js 1049-1109): symmetric to `initiatorRefund` on
the responder escrow (`toChain`, responder timeout and refund secret). -/
def responderRefund (env : ChainEnv) (now : Nat) (nowIso : String)
    (st : SwapStore) (swapId : String) (toAddress : Option String) :
    Except SwapErr RefundResult × SwapStore :=
  match lookupSwap st swapId with
  | none => (.error .swapNotFound, st)
  | some swap =>
    if now < swap.responderHTLC.timeout then
      (.error (.timeoutNotReached (swap.responderHTLC.timeout - now)), st)
    else
      match fetchUtxos env swap.toChain swap.responderHTLC with
      | .error e => (.error (.ledger e), st)
      | .ok none => (.error .noFundsToRefund, st)
      | .ok (some []) => (.error .noFundsToRefund, st)
      | .ok (some (utxo :: _)) =>
        let destination := match toAddress with
          | some a => some a
          | none => swap.responder.refundAddress
        let chainModule := env swap.toChain
        match chainModule.buildRefundTransaction
            ⟨utxo, swap.responder.refund_secret,
             swap.responderHTLC.lockingScript, swap.responderHTLC.lockingScript,
             destination⟩ with
        | .error e => (.error (.ledger e), st)
        | .ok refundTx =>
          match chainModule.broadcastTransaction refundTx.txHex with
          | .error e => (.error (.ledger e), st)
          | .ok txid =>
            let swap2 := { swap with
              status := .refunded
              updatedAt := nowIso
              transactions := swap.transactions ++
                [⟨"responder_refund", swap.toChain, txid, false, nowIso⟩] }
            (.ok ⟨swapId, SwapStatus.refunded, txid, swap.toChain⟩,
             setSwap st swapId swap2)

/-! ### Concrete fixtures for witnesses and counterexamples -/

/-- An adapter whose queries and broadcasts all succeed. -/
def okModule : ChainModule where
  validateAddress := fun _ => true
  getHTLCBalance := fun _ => .ok ⟨some 100000, none, [⟨"ftx", 0, 100000⟩]⟩
  getBalance := fun _ => .ok ⟨some 100000, none, [⟨"ftx", 0, 100000⟩]⟩
  buildClaimTransaction := fun _ => .ok ⟨"rawclaim"⟩
  buildRefundTransaction := fun _ => .ok ⟨"rawrefund"⟩
  broadcastTransaction := fun _ => .ok "txid123"
  createHTLCInfo := fun _ => .ok ⟨"soladdr", "soldata"⟩

def envOk : ChainEnv := fun _ => okModule

/-- Like `envOk` but the broadcast call raises (a ledger I/O failure after
validation). -/
def envBroadcastFail : ChainEnv := fun _ =>
  { okModule with broadcastTransaction := fun _ => .error "broadcast failed" }

def sampleInitiator : InitiatorSecrets :=
  ⟨[1], [2], [3], [4], [5], [6]⟩

/-- A fully funded swap record (BTC → BSV), as left by
initiate/join/fund-both. -/
def fullyFundedSwap : Swap :=
  { swapId := "s1"
    status := .fully_funded
    fromChain := .BTC
    toChain := .BSV
    fromAmount := 100000
    toAmount := 95000
    toAddress := "addrB"
    refundAddress := "addrA"
    initiator := sampleInitiator
    responder := ⟨some [7], some [8], some [9], some [10], some "addrC", some "addrD"⟩
    initiatorHTLC := ⟨.BTC, some "p2sh", some [0x63], some [0xaa], 1000, true, some "ftx1", none⟩
    responderHTLC := ⟨.BSV, none, some [0x63], some [0xbb], 500, true, some "ftx2", none⟩
    transactions := []
    createdAt := "t0"
    updatedAt := "t0" }

def stFunded : SwapStore := [("s1", fullyFundedSwap)]

/-- C9: a refund attempted while `now` is strictly before the corresponding
escrow's timeout fails with a timeout-not-reached error reporting exactly
`timeout - now` remaining seconds, and the store is returned unchanged — for
the initiator refund (initiator escrow timeout) and the responder refund
(responder escrow timeout) alike. -/
theorem refund_before_timeout_fails (env : ChainEnv) (now : Nat) (nowIso : String)
    (st : SwapStore) (swapId : String) (toAddress : Option String) (swap : Swap)
    (hlk : lookupSwap st swapId = some swap) :
    (now < swap.initiatorHTLC.timeout →
      initiatorRefund env now nowIso st swapId toAddress =
        (.error (.timeoutNotReached (swap.initiatorHTLC.timeout - now)), st)) ∧
    (now < swap.responderHTLC.timeout →
      responderRefund env now nowIso st swapId toAddress =
        (.error (.timeoutNotReached (swap.responderHTLC.timeout - now)), st)) := by
  constructor
  · intro h
    unfold initiatorRefund
    rw [hlk]
    simp [h]
  · intro h
    unfold responderRefund
    rw [hlk]
    simp [h]

theorem refund_before_timeout_fails_witness :
    lookupSwap stFunded "s1" = some fullyFundedSwap ∧
    100 < fullyFundedSwap.initiatorHTLC.timeout ∧
    100 < fullyFundedSwap.responderHTLC.timeout ∧
    initiatorRefund envOk 100 "t1" stFunded "s1" none =
      (.error (.timeoutNotReached (fullyFundedSwap.initiatorHTLC.timeout - 100)), stFunded) ∧
    responderRefund envOk 100 "t1" stFunded "s1" none =
      (.error (.timeoutNotReached (fullyFundedSwap.responderHTLC.timeout - 100)), stFunded) := by
  have h := refund_before_timeout_fails envOk 100 "t1" stFunded "s1" none
    fullyFundedSwap rfl
  exact ⟨rfl, by decide, by decide, h.1 (by decide), h.2 (by decide)⟩

/-- C2 amended: the responder's claim verifies the supplied swap secret
against the initiator's committed swap hash before any ledger call, failing
with the preimage error and an unchanged store on mismatch. -/
theorem responderClaim_rejects_bad_swap_secret (env : ChainEnv) (H : CryptoPrims)
    (nowIso : String) (st : SwapStore) (swapId : String) (swapSecret : Bytes)
    (toAddress : Option String) (swap : Swap)
    (hlk : lookupSwap st swapId = some swap)
    (hmm : H.sha256 swapSecret ≠ swap.initiator.swap_hash) :
    responderClaim env H nowIso st swapId swapSecret toAddress =
      (.error .invalidSwapSecret, st) := by
  unfold responderClaim
  rw [hlk]
  simp [hmm]

theorem responderClaim_rejects_bad_swap_secret_witness :
    lookupSwap stFunded "s1" = some fullyFundedSwap ∧
    testPrims.sha256 [9, 9] ≠ fullyFundedSwap.initiator.swap_hash ∧
    responderClaim envOk testPrims "t1" stFunded "s1" [9, 9] none =
      (.error .invalidSwapSecret, stFunded) :=
  ⟨rfl, by decide,
   responderClaim_rejects_bad_swap_secret envOk testPrims "t1" stFunded "s1"
     [9, 9] none fullyFundedSwap rfl (by decide)⟩

/-- C2 counterexample: the initiator's claim performs no preimage
verification at all.  Here the stored swap secret does not hash to the
committed swap hash (under the hash instantiation, and indeed under any
32-byte hash, the commitment being a single byte), yet `initiatorClaim`
proceeds to build, broadcast and record the spend, returning success rather
than failing with a preimage error before broadcast. -/
theorem initiatorClaim_skips_preimage_check :
    testPrims.sha256 fullyFundedSwap.initiator.swap_secret ≠
      fullyFundedSwap.initiator.swap_hash ∧
    (initiatorClaim envOk "t1" stFunded "s1" none).1 =
      .ok ⟨"s1", .completed, "txid123", .BSV, some fullyFundedSwap.initiator.swap_secret⟩ := by
  constructor
  · decide
  · rfl

/-- C1 (code-bug evidence): a ledger I/O failure after validation — here the
broadcast raising — leaves the record mutated: `initiatorClaim` sets the
status to `claiming` before any adapter call, so the failed attempt leaves
`claiming` instead of the pre-attempt `fully_funded`, and a retry is then
rejected by the status gate. -/
theorem initiatorClaim_broadcast_failure_mutates_status :
    (initiatorClaim envBroadcastFail "t1" stFunded "s1" none).1 =
      .error (.ledger "broadcast failed") ∧
    (lookupSwap stFunded "s1").map Swap.status = some .fully_funded ∧
    (lookupSwap (initiatorClaim envBroadcastFail "t1" stFunded "s1" none).2 "s1").map
      Swap.status = some .claiming ∧
    (initiatorClaim envBroadcastFail "t1" stFunded "s1" none).2 ≠ stFunded := by
  refine ⟨rfl, rfl, rfl, ?_⟩
  decide

/-- C8 counterexample: `initiateSwap` performs no amount validation — a call
with `fromAmount = 0` and `toAmount = -5` (both non-positive), distinct
chains and adapter-valid addresses succeeds and creates a swap record. -/
theorem initiateSwap_accepts_nonpositive_amounts :
    (initiateSwap envOk ⟨86400, 43200⟩ sampleInitiator "u1" 1000 "t0" []
        ⟨.BSV, .BTC, 0, -5, "addrX", "addrY"⟩).1 =
      .ok ⟨"qswap_u1", .initiated, [2], 1000 + 86400, 1000 + 43200⟩ ∧
    (lookupSwap (initiateSwap envOk ⟨86400, 43200⟩ sampleInitiator "u1" 1000 "t0" []
        ⟨.BSV, .BTC, 0, -5, "addrX", "addrY"⟩).2 "qswap_u1").map Swap.fromAmount =
      some 0 ∧
    (lookupSwap (initiateSwap envOk ⟨86400, 43200⟩ sampleInitiator "u1" 1000 "t0" []
        ⟨.BSV, .BTC, 0, -5, "addrX", "addrY"⟩).2 "qswap_u1").map Swap.toAmount =
      some (-5) :=
  ⟨rfl, rfl, rfl⟩

/-- C8 amended: `initiateSwap` rejects an equal ledger pair and addresses the
adapters' validators refuse — creating no record in either case — but it
performs no validation of the amounts: with distinct chains and valid
addresses the call succeeds (whatever the amounts), creating an `initiated`
record carrying them verbatim. -/
theorem initiateSwap_validations (env : ChainEnv) (cfg : SwapConfig)
    (gen : InitiatorSecrets) (uuid : String) (now : Nat) (nowIso : String)
    (st : SwapStore) (p : InitParams) :
    (p.fromChain = p.toChain →
      initiateSwap env cfg gen uuid now nowIso st p = (.error .sameChain, st)) ∧
    (p.fromChain ≠ p.toChain →
      (env p.fromChain).validateAddress p.refundAddress = false →
      initiateSwap env cfg gen uuid now nowIso st p = (.error .invalidRefundAddress, st)) ∧
    (p.fromChain ≠ p.toChain →
      (env p.fromChain).validateAddress p.refundAddress = true →
      (env p.toChain).validateAddress p.toAddress = false →
      initiateSwap env cfg gen uuid now nowIso st p = (.error .invalidToAddress, st)) ∧
    (p.fromChain ≠ p.toChain →
      (env p.fromChain).validateAddress p.refundAddress = true →
      (env p.toChain).validateAddress p.toAddress = true →
      ∃ r swap', (initiateSwap env cfg gen uuid now nowIso st p).1 = .ok r ∧
        lookupSwap (initiateSwap env cfg gen uuid now nowIso st p).2
          ("qswap_" ++ uuid) = some swap' ∧
        swap'.status = .initiated ∧
        swap'.fromAmount = p.fromAmount ∧ swap'.toAmount = p.toAmount) := by
  refine ⟨?_, ?_, ?_, ?_⟩
  · intro heq
    unfold initiateSwap
    simp [heq]
  · intro hne hbad
    unfold initiateSwap
    simp [hne, hbad]
  · intro hne hok hbad
    unfold initiateSwap
    simp [hne, hok, hbad]
  · intro hne hok1 hok2
    unfold initiateSwap
    simp only [hne, hok1, hok2, if_false, not_true_eq_false, reduceIte, if_neg hne]
    refine ⟨_,
      { swapId := "qswap_" ++ uuid
        status := .initiated
        fromChain := p.fromChain
        toChain := p.toChain
        fromAmount := p.fromAmount
        toAmount := p.toAmount
        toAddress := p.toAddress
        refundAddress := p.refundAddress
        initiator := gen
        responder := ⟨none, none, none, none, none, none⟩
        initiatorHTLC := ⟨p.fromChain, none, none, none,
          now + cfg.initiatorTimeoutSeconds, false, none, none⟩
        responderHTLC := ⟨p.toChain, none, none, none,
          now + cfg.responderTimeoutSeconds, false, none, none⟩
        transactions := []
        createdAt := nowIso
        updatedAt := nowIso }, rfl, ?_, rfl, rfl, rfl⟩
    simp [lookupSwap, setSwap]

theorem initiateSwap_validations_witness :
    ((Chain.BSV : Chain) = Chain.BSV →
      initiateSwap envOk ⟨86400, 43200⟩ sampleInitiator "u2" 1000 "t0" []
        ⟨.BSV, .BSV, 7, 7, "a", "b"⟩ = (.error .sameChain, [])) ∧
    Chain.BTC ≠ Chain.BSV ∧
    (envOk Chain.BTC).validateAddress "b" = true ∧
    (envOk Chain.BSV).validateAddress "a" = true ∧
    (∃ r swap', (initiateSwap envOk ⟨86400, 43200⟩ sampleInitiator "u2" 1000 "t0" []
        ⟨.BTC, .BSV, 7, 7, "a", "b"⟩).1 = .ok r ∧
      lookupSwap (initiateSwap envOk ⟨86400, 43200⟩ sampleInitiator "u2" 1000 "t0" []
        ⟨.BTC, .BSV, 7, 7, "a", "b"⟩).2 ("qswap_" ++ "u2") = some swap' ∧
      swap'.status = .initiated ∧ swap'.fromAmount = 7 ∧ swap'.toAmount = 7) :=
  ⟨(initiateSwap_validations envOk ⟨86400, 43200⟩ sampleInitiator "u2" 1000 "t0" []
      ⟨.BSV, .BSV, 7, 7, "a", "b"⟩).1,
   by decide, by decide, by decide,
   (initiateSwap_validations envOk ⟨86400, 43200⟩ sampleInitiator "u2" 1000 "t0" []
      ⟨.BTC, .BSV, 7, 7, "a", "b"⟩).2.2.2 (by decide) (by decide) (by decide)⟩

theorem createHTLC_ok_of_base (H : CryptoPrims) (a b c : Bytes) (t : Nat)
    (base : HTLCScriptData) (hbase : createHTLCScript H a b c t = .ok base) :
    ∀ (chain : Chain) (network : String),
    createHTLC H a b c t chain network = .ok
      (match chain with
       | .BSV => { base := base, network := network, outputType := "bare-script"
                   address := none, lockingScriptF := some base.redeemScript
                   scriptHashF := some base.sha256Hash }
       | _ => { base := base, network := network, outputType := "p2sh"
                address := some (scriptHashToP2SH H base.redeemScriptHash network)
                lockingScriptF := none, scriptHashF := none }) := by
  intro chain network
  cases chain <;> simp [createHTLC, hbase, bind, Except.bind, pure, Except.pure]

theorem applySideHTLC_ok (env : ChainEnv) (solInfoF : SolHTLCParams → SolHTLCInfo)
    (hSol : ∀ p, (env Chain.SOL).createHTLCInfo p = .ok (solInfoF p)) :
    ∀ (chain : Chain) (side : HTLCSide) (res : HTLCFull) (q : SolHTLCParams),
    applySideHTLC env chain side res q = .ok
      (match chain with
       | .BSV => { side with lockingScript := res.lockingScriptF
                             scriptHash := res.scriptHashF, address := none }
       | .BTC => { side with address := res.address
                             lockingScript := some res.base.redeemScript
                             scriptHash := some res.base.redeemScriptHash }
       | .SOL => { side with address := some (solInfoF q).htlcAddress
                             htlcData := some (solInfoF q).htlcData }) := by
  intro chain side res q
  cases chain <;> simp [applySideHTLC, hSol, Except.map]

theorem lookupSwap_setSwap (st : SwapStore) (swapId : String) (s : Swap) :
    lookupSwap (setSwap st swapId s) swapId = some s := by
  simp [lookupSwap, setSwap]

/-- C3: `joinSwap` succeeds only from the `initiated` status, failing with a
state error (and an untouched store) from every other status; on success it
derives the initiator's escrow script from `(initiator.swap_hash,
responder.recipient_hash, initiator.refund_hash, initiator timeout)` and the
responder's from `(initiator.swap_hash, initiator.claim_hash,
responder.refund_hash, responder timeout)` — both parse back to those exact
commitments, so the two escrow programs embed the same `swap_hash` — stores
the derived script on each non-SOL leg, and transitions the record to
`counterparty_joined`. -/
theorem joinSwap_correct (env : ChainEnv) (H : CryptoPrims)
    (g : ResponderSecretsGen) (now : Nat) (nowIso : String) (st : SwapStore)
    (swapId toAddress refundAddress : String) (swap : Swap)
    (solInfoF : SolHTLCParams → SolHTLCInfo)
    (hlk : lookupSwap st swapId = some swap) :
    (swap.status ≠ .initiated →
      joinSwap env H g now nowIso st swapId toAddress refundAddress =
        (.error (.cannotJoinStatus swap.status), st)) ∧
    (swap.status = .initiated →
      (env swap.fromChain).validateAddress toAddress = true →
      (env swap.toChain).validateAddress refundAddress = true →
      swap.initiator.swap_hash.length = 32 →
      swap.initiator.refund_hash.length = 32 →
      swap.initiator.claim_hash.length = 32 →
      g.recipient_hash.length = 32 →
      g.refund_hash.length = 32 →
      1 ≤ swap.initiatorHTLC.timeout → swap.initiatorHTLC.timeout < 2 ^ 53 →
      1 ≤ swap.responderHTLC.timeout → swap.responderHTLC.timeout < 2 ^ 53 →
      (∀ q, (env Chain.SOL).createHTLCInfo q = .ok (solInfoF q)) →
      ∃ swap' iRes rRes,
        joinSwap env H g now nowIso st swapId toAddress refundAddress =
          (.ok { swapId := swapId, status := SwapStatus.counterparty_joined },
           setSwap st swapId swap') ∧
        swap'.status = .counterparty_joined ∧
        createHTLC H swap.initiator.swap_hash g.recipient_hash
            swap.initiator.refund_hash swap.initiatorHTLC.timeout
            swap.fromChain "mainnet" = .ok iRes ∧
        createHTLC H swap.initiator.swap_hash swap.initiator.claim_hash
            g.refund_hash swap.responderHTLC.timeout swap.toChain "mainnet" = .ok rRes ∧
        parseHTLCScript iRes.base.redeemScript = .ok
          { swapHash := swap.initiator.swap_hash
            recipientHash := g.recipient_hash
            refundHash := swap.initiator.refund_hash
            timeout := swap.initiatorHTLC.timeout
            timeoutHex := encodeMinimalNumber swap.initiatorHTLC.timeout } ∧
        parseHTLCScript rRes.base.redeemScript = .ok
          { swapHash := swap.initiator.swap_hash
            recipientHash := swap.initiator.claim_hash
            refundHash := g.refund_hash
            timeout := swap.responderHTLC.timeout
            timeoutHex := encodeMinimalNumber swap.responderHTLC.timeout } ∧
        (swap.fromChain ≠ .SOL →
          swap'.initiatorHTLC.lockingScript = some iRes.base.redeemScript) ∧
        (swap.toChain ≠ .SOL →
          swap'.responderHTLC.lockingScript = some rRes.base.redeemScript)) := by
  constructor
  · intro hne
    simp only [joinSwap, hlk]
    simp [hne]
  · intro hstat hv1 hv2 h1 h2 h3 h4 h5 ht1 ht1b ht2 ht2b hSol
    have hIbase := createHTLCScript_ok H swap.initiator.swap_hash g.recipient_hash
      swap.initiator.refund_hash swap.initiatorHTLC.timeout h1 h4 h2 ht1 ht1b
    have hRbase := createHTLCScript_ok H swap.initiator.swap_hash
      swap.initiator.claim_hash g.refund_hash swap.responderHTLC.timeout h1 h3 h5 ht2 ht2b
    have hparseI : parseHTLCScript (htlcTemplate swap.initiator.swap_hash g.recipient_hash
        swap.initiator.refund_hash (encodeMinimalNumber swap.initiatorHTLC.timeout) []) =
        .ok { swapHash := swap.initiator.swap_hash
              recipientHash := g.recipient_hash
              refundHash := swap.initiator.refund_hash
              timeout := swap.initiatorHTLC.timeout
              timeoutHex := encodeMinimalNumber swap.initiatorHTLC.timeout } := by
      rw [parseHTLCScript_template _ _ _ _ _ h1 h4 h2, decode_encode]
    have hparseR : parseHTLCScript (htlcTemplate swap.initiator.swap_hash
        swap.initiator.claim_hash g.refund_hash
        (encodeMinimalNumber swap.responderHTLC.timeout) []) =
        .ok { swapHash := swap.initiator.swap_hash
              recipientHash := swap.initiator.claim_hash
              refundHash := g.refund_hash
              timeout := swap.responderHTLC.timeout
              timeoutHex := encodeMinimalNumber swap.responderHTLC.timeout } := by
      rw [parseHTLCScript_template _ _ _ _ _ h1 h3 h5, decode_encode]
    simp only [joinSwap, hlk]
    rw [if_neg (by simp [hstat]), if_neg (by simp [hv1]), if_neg (by simp [hv2])]
    simp only [createHTLC_ok_of_base H _ _ _ _ _ hIbase,
      createHTLC_ok_of_base H _ _ _ _ _ hRbase,
      applySideHTLC_ok env solInfoF hSol]
    refine ⟨_, _, _, rfl, rfl, rfl, rfl, ?_, ?_, ?_, ?_⟩
    · cases swap.fromChain <;> exact hparseI
    · cases swap.toChain <;> exact hparseR
    · intro hne
      cases hc : swap.fromChain
      · rfl
      · rfl
      · exact absurd hc hne
    · intro hne
      cases hc : swap.toChain
      · rfl
      · rfl
      · exact absurd hc hne

def initiatedSwap : Swap :=
  { swapId := "s2"
    status := .initiated
    fromChain := .BTC
    toChain := .BSV
    fromAmount := 100000
    toAmount := 95000
    toAddress := "addrB"
    refundAddress := "addrA"
    initiator := ⟨[1], List.replicate 32 2, [3], List.replicate 32 4, [5], List.replicate 32 6⟩
    responder := ⟨none, none, none, none, none, none⟩
    initiatorHTLC := ⟨.BTC, none, none, none, 1000, false, none, none⟩
    responderHTLC := ⟨.BSV, none, none, none, 500, false, none, none⟩
    transactions := []
    createdAt := "t0"
    updatedAt := "t0" }

def stInitiated : SwapStore := [("s2", initiatedSwap)]

def gSample : ResponderSecretsGen := ⟨[7], List.replicate 32 8, [9], List.replicate 32 10⟩

def solInfoConst : SolHTLCParams → SolHTLCInfo := fun _ => ⟨"soladdr", "soldata"⟩

theorem joinSwap_correct_witness :
    lookupSwap stInitiated "s2" = some initiatedSwap ∧
    initiatedSwap.status = SwapStatus.initiated ∧
    (envOk initiatedSwap.fromChain).validateAddress "addrC" = true ∧
    (envOk initiatedSwap.toChain).validateAddress "addrD" = true ∧
    initiatedSwap.initiator.swap_hash.length = 32 ∧
    initiatedSwap.initiator.refund_hash.length = 32 ∧
    initiatedSwap.initiator.claim_hash.length = 32 ∧
    gSample.recipient_hash.length = 32 ∧
    gSample.refund_hash.length = 32 ∧
    1 ≤ initiatedSwap.initiatorHTLC.timeout ∧
    initiatedSwap.initiatorHTLC.timeout < 2 ^ 53 ∧
    1 ≤ initiatedSwap.responderHTLC.timeout ∧
    initiatedSwap.responderHTLC.timeout < 2 ^ 53 ∧
    (∀ q, (envOk Chain.SOL).createHTLCInfo q = .ok (solInfoConst q)) ∧
    (∃ swap' iRes rRes,
      joinSwap envOk testPrims gSample 100 "t1" stInitiated "s2" "addrC" "addrD" =
        (.ok { swapId := "s2", status := SwapStatus.counterparty_joined },
         setSwap stInitiated "s2" swap') ∧
      swap'.status = .counterparty_joined ∧
      createHTLC testPrims initiatedSwap.initiator.swap_hash gSample.recipient_hash
          initiatedSwap.initiator.refund_hash initiatedSwap.initiatorHTLC.timeout
          initiatedSwap.fromChain "mainnet" = .ok iRes ∧
      createHTLC testPrims initiatedSwap.initiator.swap_hash
          initiatedSwap.initiator.claim_hash gSample.refund_hash
          initiatedSwap.responderHTLC.timeout initiatedSwap.toChain "mainnet" = .ok rRes ∧
      parseHTLCScript iRes.base.redeemScript = .ok
        { swapHash := initiatedSwap.initiator.swap_hash
          recipientHash := gSample.recipient_hash
          refundHash := initiatedSwap.initiator.refund_hash
          timeout := initiatedSwap.initiatorHTLC.timeout
          timeoutHex := encodeMinimalNumber initiatedSwap.initiatorHTLC.timeout } ∧
      parseHTLCScript rRes.base.redeemScript = .ok
        { swapHash := initiatedSwap.initiator.swap_hash
          recipientHash := initiatedSwap.initiator.claim_hash
          refundHash := gSample.refund_hash
          timeout := initiatedSwap.responderHTLC.timeout
          timeoutHex := encodeMinimalNumber initiatedSwap.responderHTLC.timeout } ∧
      (initiatedSwap.fromChain ≠ .SOL →
        swap'.initiatorHTLC.lockingScript = some iRes.base.redeemScript) ∧
      (initiatedSwap.toChain ≠ .SOL →
        swap'.responderHTLC.lockingScript = some rRes.base.redeemScript)) :=
  ⟨rfl, rfl, by decide, by decide, by decide, by decide, by decide, by decide, by decide,
   by decide, by decide, by decide, by decide, fun q => rfl,
   (joinSwap_correct envOk testPrims gSample 100 "t1" stInitiated "s2" "addrC" "addrD"
      initiatedSwap solInfoConst rfl).2 rfl (by decide) (by decide) (by decide)
      (by decide) (by decide) (by decide) (by decide) (by decide) (by decide)
      (by decide) (by decide) (fun q => rfl)⟩
